import Mathlib

/-!
# Verification of the DBHub JavaScript client

Shallow embedding of the two source versions of the DBHub client
(`src/src/index.js`, the current version, and `src/unnamed/part_000`,
the earlier version) and proofs about the claims of the specification.

The embedding models:
* JSON values (the result of `JSON.parse` on a response body);
* JavaScript string interpolation (`ToString`) as used by the template
  literals in the source;
* `FormData` bodies as ordered lists of key/value string pairs, with
  `append` adding an entry at the end and converting non-string values
  with `String(value)`;
* thrown JavaScript errors as records carrying the error class, the
  message, and the installed `cause` (if any);
* the network as an explicit `FetchOutcome` input to the dispatcher:
  either the promise resolves with a status and a body, or it rejects;
* `btoa` as a fallible base64 encoder over code points `≤ 255`.
-/

namespace DBHubJS

/-- JSON values: the possible results of `JSON.parse` on a response body.
JSON numbers are modelled as integers (no claim exercises non-integral
numbers). -/
inductive Json where
  | null : Json
  | bool : Bool → Json
  | num : Int → Json
  | str : String → Json
  | arr : List Json → Json
  | obj : List (String × Json) → Json
deriving Repr

mutual

/-- JavaScript `ToString` conversion, as performed by a template literal
`${x}`: `null` renders as `"null"`, booleans as `"true"`/`"false"`,
strings as themselves, plain objects as `"[object Object]"`, and arrays
as their elements joined by `","` per `Array.prototype.join`. -/
def jsStr : Json → String
  | .null => "null"
  | .bool b => cond b "true" "false"
  | .num n => toString n
  | .str s => s
  | .obj _ => "[object Object]"
  | .arr xs => String.intercalate "," (jsArrParts xs)

/-- The rendered elements of an array under `Array.prototype.join`:
`null` elements render empty, others by `ToString`. -/
def jsArrParts : List Json → List String
  | [] => []
  | .null :: rest => "" :: jsArrParts rest
  | j :: rest => jsStr j :: jsArrParts rest

end

/-- Interpolation of a possibly-`undefined` value (`undefined` renders as
`"undefined"` in a template literal). -/
def jsStrOpt : Option Json → String
  | none => "undefined"
  | some j => jsStr j

/-- A value placed into the caller's parameter mapping: the source passes
strings (identifiers and the base64-encoded SQL) and one boolean
(`live`). -/
inductive FormValue where
  | str : String → FormValue
  | bool : Bool → FormValue
deriving Repr, DecidableEq

/-- `FormData.append` converts a non-`Blob` value with `String(value)`. -/
def FormValue.toFormString : FormValue → String
  | .str s => s
  | .bool b => cond b "true" "false"

/-- The class of a thrown JavaScript error value. -/
inductive ErrClass where
  | error
  | typeError
  | syntaxError
  | domException
deriving Repr, DecidableEq

/-- A thrown JavaScript error: its class, its `message`, and its installed
`cause` property (abstracted as an opaque description), `none` when no
cause was installed. -/
structure JsError where
  cls : ErrClass
  message : String
  cause : Option String
deriving Repr, DecidableEq

/-- The `SyntaxError` thrown by `response.json()` when the body is not
parseable as JSON. The diagnostic text is runtime-dependent; it is
modelled by a fixed representative. It is produced by the JSON parser,
which has no access to the HTTP status, so it never mentions the status. -/
def jsonParseError : JsError :=
  { cls := .syntaxError, message := "Unexpected end of JSON input", cause := none }

/-- The `TypeError` thrown by destructuring `const {error} = x` when `x`
is `null`. The diagnostic text is runtime-dependent; modelled by a fixed
representative. -/
def destructureNullError : JsError :=
  { cls := .typeError, message := "Cannot destructure property of null", cause := none }

/-- The `InvalidCharacterError` (a `DOMException`) thrown by `btoa` on a
code point above `U+00FF`. -/
def invalidCharacterError : JsError :=
  { cls := .domException, message := "Invalid character", cause := none }

/-- The base64 alphabet used by `btoa`. -/
def base64Alphabet : List Char :=
  "ABCDEFGHIJKLMNOPQRSTUVWXYZabcdefghijklmnopqrstuvwxyz0123456789+/".toList

/-- The base64 digit for a 6-bit value. -/
def b64digit (n : Nat) : Char := base64Alphabet.getD n '?'

/-- Standard base64 encoding of a byte sequence, with `=` padding, as
performed by `btoa` on the code points of a binary string. -/
def base64Encode : List Nat → String
  | [] => ""
  | [b1] =>
      String.mk [b64digit (b1 / 4), b64digit (b1 % 4 * 16), '=', '=']
  | [b1, b2] =>
      String.mk [b64digit (b1 / 4), b64digit (b1 % 4 * 16 + b2 / 16),
                 b64digit (b2 % 16 * 4), '=']
  | b1 :: b2 :: b3 :: rest =>
      String.mk [b64digit (b1 / 4), b64digit (b1 % 4 * 16 + b2 / 16),
                 b64digit (b2 % 16 * 4 + b3 / 64), b64digit (b3 % 64)]
        ++ base64Encode rest

/-- `btoa(s)`: succeeds with the base64 encoding of the code points of
`s` when every code point lies in `U+0000 .. U+00FF`; throws
`InvalidCharacterError` otherwise. -/
def btoa (s : String) : Except JsError String :=
  if s.toList.all (fun c => c.toNat ≤ 255) then
    .ok (base64Encode (s.toList.map (fun c => c.toNat)))
  else
    .error invalidCharacterError

/-- The endpoint table of the current source version
(`src/src/index.js`, `get_endpoints`), parameterized by the version
number interpolated into each path. The source fixes `const version = 1`. -/
def endpoints_table (version : Nat) : List (String × String) :=
  [("branches", "/v" ++ toString version ++ "/branches"),
   ("columns", "/v" ++ toString version ++ "/columns"),
   ("commits", "/v" ++ toString version ++ "/commits"),
   ("databases", "/v" ++ toString version ++ "/databases"),
   ("delete", "/v" ++ toString version ++ "/delete"),
   ("execute", "/v" ++ toString version ++ "/execute"),
   ("query", "/v" ++ toString version ++ "/query")]

/-- The endpoint table of the earlier source version
(`src/unnamed/part_000`, `get_endpoints`), parameterized likewise. -/
def endpoints_table_v0 (version : Nat) : List (String × String) :=
  [("databases", "/v" ++ toString version ++ "/databases"),
   ("columns", "/v" ++ toString version ++ "/columns"),
   ("query", "/v" ++ toString version ++ "/query"),
   ("execute", "/v" ++ toString version ++ "/execute")]

/-- `get_endpoints` of the current version: the table at `version = 1`. -/
def get_endpoints : List (String × String) := endpoints_table 1

/-- `get_endpoints` of the earlier version: its table at `version = 1`. -/
def get_endpoints_v0 : List (String × String) := endpoints_table_v0 1

/-- The client handle: `base_url`, `endpoints` and `api_key`, the three
fields the constructor assigns. -/
structure DBHub where
  base_url : String
  endpoints : List (String × String)
  api_key : String
deriving Repr, DecidableEq

/-- The constructor `new DBHub(api_key)`: `if (!api_key) throw`, so both
an absent argument (`undefined`) and the empty string (falsy) are
rejected; any non-empty string passes, and the three fields are
assigned. The constructor performs no network call: its embedding takes
no `FetchOutcome` and produces no `Request`. -/
def DBHub.construct : Option String → Except JsError DBHub
  | none => .error { cls := .error, message := "Missing required API key!", cause := none }
  | some key =>
      if key = "" then
        .error { cls := .error, message := "Missing required API key!", cause := none }
      else
        .ok { base_url := "https://api.dbhub.io", endpoints := get_endpoints, api_key := key }

/-- Property access `this.endpoints.name`: a present key yields its path;
a missing key reads as `undefined`, which a template literal would render
as `"undefined"`. -/
def DBHub.endpoint (self : DBHub) (name : String) : String :=
  match self.endpoints.find? (fun e => e.1 == name) with
  | some e => e.2
  | none => "undefined"

/-- A dispatched HTTP request: the target URL and the `FormData` body as
an ordered list of entries, in `append` order. -/
structure Request where
  url : String
  body : List (String × String)
deriving Repr, DecidableEq

/-- The outcome of the `fetch` call, supplied as an input to the
dispatcher: either the promise resolves with an HTTP status and a body
(`none` when the body text is not parseable as JSON), or it rejects.
A rejection carries the `cause` property of the rejection value when the
runtime sets one (Node's `fetch` rejects with a `TypeError` whose
`cause` is the underlying system error; browsers set none). -/
inductive FetchOutcome where
  | resolved : Nat → Option Json → FetchOutcome
  | rejected : Option String → FetchOutcome
deriving Repr

/-- `Response.ok`: true exactly when the status is in `200 .. 299`. -/
def response_ok (status : Nat) : Bool := 200 ≤ status && status ≤ 299

/-- `await response.json()`: the parsed body, or the parser's
`SyntaxError` when the body is unparseable. -/
def response_json : Option Json → Except JsError Json
  | none => .error jsonParseError
  | some j => .ok j

/-- `const {error} = v`: destructuring throws a `TypeError` on `null`;
on an object it reads the `error` property (`none` = `undefined` when
absent); on any other value property access yields `undefined`. -/
def destructure_error : Json → Except JsError (Option Json)
  | .null => .error destructureNullError
  | .obj fields => .ok ((fields.find? (fun f => f.1 == "error")).map (fun f => f.2))
  | _ => .ok none

/-- `make_request(url, parameters)`: builds the `FormData` body by
appending `("apikey", this.api_key)` first and then every entry of
`parameters` in order; issues the POST; on rejection throws
`new Error("Fetch failed!", error)` — the rejection value is passed as
the options bag, so a `cause` is installed exactly when the rejection
value exposes a `cause` property, and it is that property's value; on a
non-2xx response destructures `error` out of the parsed body and throws
an `Error` whose message interpolates the error value and the status; on
a 2xx response returns the parsed body.

The returned triple is the handle after the call (no statement of the
source assigns to `this`, so it is `self`), the request as built, and
the result. -/
def DBHub.make_request (self : DBHub) (url : String)
    (parameters : List (String × FormValue)) (outcome : FetchOutcome) :
    DBHub × Request × Except JsError Json :=
  let body := ("apikey", self.api_key) :: parameters.map (fun p => (p.1, p.2.toFormString))
  let request : Request := { url := url, body := body }
  match outcome with
  | .rejected cause =>
      (self, request, .error { cls := .error, message := "Fetch failed!", cause := cause })
  | .resolved status rbody =>
      if ! response_ok status then
        match response_json rbody with
        | .error e => (self, request, .error e)
        | .ok j =>
            match destructure_error j with
            | .error e => (self, request, .error e)
            | .ok err =>
                (self, request, .error
                  { cls := .error,
                    message := "DBHub API error message: " ++ jsStrOpt err
                      ++ " [HTTP status: " ++ toString status ++ "]",
                    cause := none })
      else
        (self, request, response_json rbody)

/-- The observable effect of one catalog call: the handle after the call,
the dispatched request (`none` when the call threw before `fetch` was
reached), and the result. -/
structure CallResult where
  handle : DBHub
  request : Option Request
  result : Except JsError Json

/-- `get_branches(dbowner, dbname)`. -/
def DBHub.get_branches (self : DBHub) (dbowner dbname : String)
    (outcome : FetchOutcome) : CallResult :=
  let url := self.base_url ++ self.endpoint "branches"
  let parameters := [("dbowner", FormValue.str dbowner), ("dbname", FormValue.str dbname)]
  let r := self.make_request url parameters outcome
  { handle := r.1, request := some r.2.1, result := r.2.2 }

/-- `get_columns(dbowner, dbname, table)`. -/
def DBHub.get_columns (self : DBHub) (dbowner dbname table : String)
    (outcome : FetchOutcome) : CallResult :=
  let url := self.base_url ++ self.endpoint "columns"
  let parameters := [("dbowner", FormValue.str dbowner), ("dbname", FormValue.str dbname),
                     ("table", FormValue.str table)]
  let r := self.make_request url parameters outcome
  { handle := r.1, request := some r.2.1, result := r.2.2 }

/-- `get_commits(dbowner, dbname)`. -/
def DBHub.get_commits (self : DBHub) (dbowner dbname : String)
    (outcome : FetchOutcome) : CallResult :=
  let url := self.base_url ++ self.endpoint "commits"
  let parameters := [("dbowner", FormValue.str dbowner), ("dbname", FormValue.str dbname)]
  let r := self.make_request url parameters outcome
  { handle := r.1, request := some r.2.1, result := r.2.2 }

/-- `get_databases(live = false)`. -/
def DBHub.get_databases (self : DBHub) (live : Bool := false)
    (outcome : FetchOutcome := .resolved 200 (some .null)) : CallResult :=
  let url := self.base_url ++ self.endpoint "databases"
  let parameters := [("live", FormValue.bool live)]
  let r := self.make_request url parameters outcome
  { handle := r.1, request := some r.2.1, result := r.2.2 }

/-- `delete_database(dbname)`. -/
def DBHub.delete_database (self : DBHub) (dbname : String)
    (outcome : FetchOutcome) : CallResult :=
  let url := self.base_url ++ self.endpoint "delete"
  let parameters := [("dbname", FormValue.str dbname)]
  let r := self.make_request url parameters outcome
  { handle := r.1, request := some r.2.1, result := r.2.2 }

/-- `execute(dbowner, dbname, sql)`: the parameter object evaluates
`btoa(sql)` before `make_request` is called, so a `btoa` throw
propagates and no request is issued. -/
def DBHub.execute (self : DBHub) (dbowner dbname sql : String)
    (outcome : FetchOutcome) : CallResult :=
  let url := self.base_url ++ self.endpoint "execute"
  match btoa sql with
  | .error e => { handle := self, request := none, result := .error e }
  | .ok encoded =>
      let parameters := [("dbowner", FormValue.str dbowner), ("dbname", FormValue.str dbname),
                         ("sql", FormValue.str encoded)]
      let r := self.make_request url parameters outcome
      { handle := r.1, request := some r.2.1, result := r.2.2 }

/-- `query(dbowner, dbname, sql)`: identical shape to `execute`, against
the `query` endpoint. -/
def DBHub.query (self : DBHub) (dbowner dbname sql : String)
    (outcome : FetchOutcome) : CallResult :=
  let url := self.base_url ++ self.endpoint "query"
  match btoa sql with
  | .error e => { handle := self, request := none, result := .error e }
  | .ok encoded =>
      let parameters := [("dbowner", FormValue.str dbowner), ("dbname", FormValue.str dbname),
                         ("sql", FormValue.str encoded)]
      let r := self.make_request url parameters outcome
      { handle := r.1, request := some r.2.1, result := r.2.2 }

/-- Boolean substring test: `needle` occurs contiguously in `hay`. Used
to state that an error message exposes a given piece of information. -/
def strContains (hay needle : String) : Bool :=
  hay.toList.tails.any (fun t => needle.toList.isPrefixOf t)

/-- The class of the error of a failed result (`none` on success): the
"kind" by which the specification distinguishes error categories. -/
def errClassOf : Except JsError Json → Option ErrClass
  | .error e => some e.cls
  | .ok _ => none

/-- A sample handle, as produced by construction with the key `"k"`. -/
def handle0 : DBHub :=
  { base_url := "https://api.dbhub.io", endpoints := get_endpoints, api_key := "k" }

/-- The dispatcher never reassigns the handle: the first component of
`make_request` is the incoming handle in every branch. -/
theorem make_request_fst (self : DBHub) (url : String)
    (parameters : List (String × FormValue)) (outcome : FetchOutcome) :
    (self.make_request url parameters outcome).1 = self := by
  unfold DBHub.make_request
  cases outcome with
  | rejected c => rfl
  | resolved status rbody =>
      dsimp only
      split
      · split
        · rfl
        · split <;> rfl
      · rfl

/-- The request built by the dispatcher: the configured `apikey` entry
first, then the caller's parameters in order, whatever the outcome. -/
theorem make_request_req (self : DBHub) (url : String)
    (parameters : List (String × FormValue)) (outcome : FetchOutcome) :
    (self.make_request url parameters outcome).2.1 =
      { url := url,
        body := ("apikey", self.api_key)
          :: parameters.map (fun p => (p.1, p.2.toFormString)) } := by
  unfold DBHub.make_request
  cases outcome with
  | rejected c => rfl
  | resolved status rbody =>
      dsimp only
      split
      · split
        · rfl
        · split <;> rfl
      · rfl

/-- On a 2xx response with a parseable body, the dispatcher returns the
parsed body. -/
theorem make_request_result_ok (self : DBHub) (url : String)
    (parameters : List (String × FormValue)) (status : Nat) (j : Json)
    (h : response_ok status = true) :
    (self.make_request url parameters (.resolved status (some j))).2.2 = .ok j := by
  unfold DBHub.make_request
  simp [h, response_json]

/-- Length of a base64 encoding: four output characters per (partial)
group of three input bytes. -/
theorem base64Encode_length (l : List Nat) :
    (base64Encode l).length = 4 * ((l.length + 2) / 3) := by
  induction l using base64Encode.induct with
  | case1 => rfl
  | case2 b1 => simp [base64Encode]
  | case3 b1 b2 => simp [base64Encode]
  | case4 b1 b2 b3 rest ih =>
      simp only [base64Encode, String.length_append, ih, List.length_cons]
      have h4 : (String.mk [b64digit (b1 / 4), b64digit (b1 % 4 * 16 + b2 / 16),
          b64digit (b2 % 16 * 4 + b3 / 64), b64digit (b3 % 64)]).length = 4 := rfl
      rw [h4]
      omega

/-- The base64 encoding of a non-empty string is never the string
itself: the encoding is strictly longer. -/
theorem base64Encode_ne_self (s : String) (h : s ≠ "") :
    base64Encode (s.toList.map (fun c => c.toNat)) ≠ s := by
  intro heq
  have hl := congrArg String.length heq
  rw [base64Encode_length, List.length_map] at hl
  have htl : s.toList.length = s.length := rfl
  rw [htl] at hl
  have hpos : 0 < s.length := by
    rcases Nat.eq_zero_or_pos s.length with h0 | hp
    · have hdata : s.data = [] := List.length_eq_zero.mp h0
      exact absurd (String.ext (hdata.trans rfl)) h
    · exact hp
  omega

/-- `btoa` succeeds on a string whose code points all lie in
`U+0000 .. U+00FF`. -/
theorem btoa_ok (s : String) (h : s.toList.all (fun c => c.toNat ≤ 255) = true) :
    btoa s = .ok (base64Encode (s.toList.map (fun c => c.toNat))) := by
  unfold btoa
  rw [h]
  simp

/-- `btoa` throws on a string with a code point above `U+00FF`. -/
theorem btoa_err (s : String) (h : s.toList.all (fun c => c.toNat ≤ 255) = false) :
    btoa s = .error invalidCharacterError := by
  unfold btoa
  rw [h]
  simp

/-- The request dispatched by `query` when the SQL is within `btoa`'s
domain. -/
theorem query_request (self : DBHub) (dbowner dbname sql : String)
    (outcome : FetchOutcome)
    (h : sql.toList.all (fun c => c.toNat ≤ 255) = true) :
    (self.query dbowner dbname sql outcome).request =
      some { url := self.base_url ++ self.endpoint "query",
             body := [("apikey", self.api_key), ("dbowner", dbowner), ("dbname", dbname),
                      ("sql", base64Encode (sql.toList.map (fun c => c.toNat)))] } := by
  unfold DBHub.query btoa
  simp only [h, if_true]
  simp [make_request_req, FormValue.toFormString]

/-- The request dispatched by `execute` when the SQL is within `btoa`'s
domain. -/
theorem execute_request (self : DBHub) (dbowner dbname sql : String)
    (outcome : FetchOutcome)
    (h : sql.toList.all (fun c => c.toNat ≤ 255) = true) :
    (self.execute dbowner dbname sql outcome).request =
      some { url := self.base_url ++ self.endpoint "execute",
             body := [("apikey", self.api_key), ("dbowner", dbowner), ("dbname", dbname),
                      ("sql", base64Encode (sql.toList.map (fun c => c.toNat)))] } := by
  unfold DBHub.execute btoa
  simp only [h, if_true]
  simp [make_request_req, FormValue.toFormString]

/-- C2 counterexample: dispatcher-wins precedence does not hold. With
configured key `"k"`, a caller parameter literally named `apikey` with
value `"attacker-key"` is appended to the dispatched body as well, so a
value different from the dispatcher's configured one is also
transmitted — `FormData.append` adds entries, it never replaces them. -/
theorem C2_caller_apikey_also_sent :
    ("apikey", "attacker-key") ∈
      (handle0.make_request "https://api.dbhub.io/v1/query"
        [("apikey", FormValue.str "attacker-key")]
        (.resolved 200 (some (.arr [])))).2.1.body ∧
    "attacker-key" ≠ handle0.api_key := by
  constructor
  · rw [make_request_req]
    simp [FormValue.toFormString]
  · decide

/-- C2 amended: for every operation and every caller-supplied parameter
mapping, the dispatched body contains the `apikey` entry with the
handle's configured key, and that entry always comes first — so a caller
can never omit authentication; but a caller field literally named
`apikey` is appended as an additional entry after it rather than being
overridden, so both values are transmitted and duplicate-field
precedence is left to the server. -/
theorem C2_apikey_injected_first (self : DBHub) (url : String)
    (parameters : List (String × FormValue)) (outcome : FetchOutcome) :
    (self.make_request url parameters outcome).2.1.body.head? =
      some ("apikey", self.api_key) ∧
    ("apikey", self.api_key) ∈ (self.make_request url parameters outcome).2.1.body ∧
    (self.make_request url parameters outcome).2.1.body =
      ("apikey", self.api_key) :: parameters.map (fun p => (p.1, p.2.toFormString)) := by
  simp [make_request_req]

/-- C3 counterexample: the error raised on a transport failure is not
distinct in kind from the error raised on a non-2xx response — both are
plain `Error` values (the source throws `new Error(...)` in both
branches), so at a concrete connection-refused rejection and a concrete
404 response the two failures have the same error class. -/
theorem C3_same_error_kind :
    errClassOf (handle0.make_request "https://api.dbhub.io/v1/query" []
        (.rejected (some "connect ECONNREFUSED"))).2.2 = some .error ∧
    errClassOf (handle0.make_request "https://api.dbhub.io/v1/query" []
        (.resolved 404 (some (.obj [("error", .str "table not found")])))).2.2 =
      some .error := ⟨rfl, rfl⟩

/-- C3 amended: when the network call itself fails, the operation fails
with an `Error` of the same kind as the non-2xx error, carrying the
fixed message `"Fetch failed!"`; the rejection value is passed to the
`Error` constructor as the options bag, so the underlying failure is
installed as the error's `cause` exactly when the runtime's rejection
value exposes a `cause` property (and it is that property's value).
Callers must distinguish the transport case from the API case by the
message, not by the error kind. -/
theorem C3_transport_failure_shape (self : DBHub) (url : String)
    (parameters : List (String × FormValue)) (cause : Option String) :
    (self.make_request url parameters (.rejected cause)).2.2 =
      .error { cls := .error, message := "Fetch failed!", cause := cause } := rfl

/-- C8: every `delete_database(dbname)` call dispatches a request whose
caller-visible parameter mapping is exactly the single entry `dbname`
(the leading `apikey` entry is the dispatcher's unconditional
injection, not a caller parameter); no owner parameter is ever sent. -/
theorem C8_delete_database_params (self : DBHub) (dbname : String)
    (outcome : FetchOutcome) :
    (self.delete_database dbname outcome).request =
      some { url := self.base_url ++ self.endpoint "delete",
             body := [("apikey", self.api_key), ("dbname", dbname)] } := by
  unfold DBHub.delete_database
  simp [make_request_req, FormValue.toFormString]

/-- C9: the handle's configuration (`base_url`, `endpoints`, `api_key`)
is immutable: the dispatcher and every catalog operation return the
handle unchanged, whatever the outcome of the call (success, API error,
transport failure, or a `btoa` throw). -/
theorem C9_handle_immutable (self : DBHub) (o n t d s url : String) (live : Bool)
    (parameters : List (String × FormValue)) (outcome : FetchOutcome) :
    (self.make_request url parameters outcome).1 = self ∧
    (self.get_branches o n outcome).handle = self ∧
    (self.get_columns o n t outcome).handle = self ∧
    (self.get_commits o n outcome).handle = self ∧
    (self.get_databases live outcome).handle = self ∧
    (self.delete_database d outcome).handle = self ∧
    (self.execute o n s outcome).handle = self ∧
    (self.query o n s outcome).handle = self := by
  refine ⟨make_request_fst self url parameters outcome, ?_, ?_, ?_, ?_, ?_, ?_, ?_⟩
  · simp [DBHub.get_branches, make_request_fst]
  · simp [DBHub.get_columns, make_request_fst]
  · simp [DBHub.get_commits, make_request_fst]
  · simp [DBHub.get_databases, make_request_fst]
  · simp [DBHub.delete_database, make_request_fst]
  · unfold DBHub.execute
    split <;> simp [make_request_fst]
  · unfold DBHub.query
    split <;> simp [make_request_fst]

/-- C1 counterexample: when the error response body is not parseable as
JSON, the HTTP status code is not surfaced. On a 404 response with an
unparseable body, `response.json()` throws before the status is
interpolated into any message: the call fails with the JSON parser's
`SyntaxError`, whose diagnostic does not mention `404`. -/
theorem C1_unparseable_body_drops_status :
    (handle0.get_columns "own" "db" "tbl" (.resolved 404 none)).result =
      .error jsonParseError ∧
    strContains jsonParseError.message "404" = false := ⟨rfl, by decide⟩

/-- C1 amended: on a non-2xx response whose body parses as a JSON object
with a string `error` field, every operation fails with an `Error` whose
message interpolates both the server-supplied error message and the HTTP
status code; but when the error body is unparseable, the JSON parse
failure propagates instead and the status code is not surfaced. -/
theorem C1_non2xx_error_exposure (self : DBHub) (url : String)
    (parameters : List (String × FormValue)) (status : Nat)
    (fields : List (String × Json)) (e : String)
    (hstatus : response_ok status = false)
    (herr : destructure_error (.obj fields) = .ok (some (.str e))) :
    (self.make_request url parameters (.resolved status (some (.obj fields)))).2.2 =
      .error { cls := .error,
               message := "DBHub API error message: " ++ e
                 ++ " [HTTP status: " ++ toString status ++ "]",
               cause := none } ∧
    (self.make_request url parameters (.resolved status none)).2.2 =
      .error jsonParseError := by
  constructor
  · unfold DBHub.make_request
    simp [hstatus, response_json, herr, jsStrOpt, jsStr]
  · unfold DBHub.make_request
    simp [hstatus, response_json]

/-- C1 witness: the simulated 404 response with body
`{"error":"table not found"}` fails with an `Error` whose message
exposes both `"table not found"` and `404`. -/
theorem C1_non2xx_error_exposure_witness :
    response_ok 404 = false ∧
    destructure_error (.obj [("error", Json.str "table not found")]) =
      .ok (some (.str "table not found")) ∧
    (handle0.make_request "https://api.dbhub.io/v1/columns" []
        (.resolved 404 (some (.obj [("error", Json.str "table not found")])))).2.2 =
      .error { cls := .error,
               message := "DBHub API error message: table not found [HTTP status: 404]",
               cause := none } ∧
    strContains "DBHub API error message: table not found [HTTP status: 404]"
      "table not found" = true ∧
    strContains "DBHub API error message: table not found [HTTP status: 404]"
      "404" = true := by
  refine ⟨by decide, by rfl, ?_, by decide, by decide⟩
  exact (C1_non2xx_error_exposure handle0 "https://api.dbhub.io/v1/columns" [] 404
      [("error", Json.str "table not found")] "table not found" (by decide) (by rfl)).1

/-- C4: every `query` or `execute` call whose SQL is within `btoa`'s
domain dispatches a body whose `sql` field is the base64 encoding of the
SQL text; the encoding of a non-empty string is never the raw string
itself (the code always sends `btoa(sql)`, never `sql`). -/
theorem C4_sql_base64_encoded (self : DBHub) (dbowner dbname sql : String)
    (outcome : FetchOutcome)
    (hdom : sql.toList.all (fun c => c.toNat ≤ 255) = true) :
    (self.query dbowner dbname sql outcome).request =
      some { url := self.base_url ++ self.endpoint "query",
             body := [("apikey", self.api_key), ("dbowner", dbowner), ("dbname", dbname),
                      ("sql", base64Encode (sql.toList.map (fun c => c.toNat)))] } ∧
    (self.execute dbowner dbname sql outcome).request =
      some { url := self.base_url ++ self.endpoint "execute",
             body := [("apikey", self.api_key), ("dbowner", dbowner), ("dbname", dbname),
                      ("sql", base64Encode (sql.toList.map (fun c => c.toNat)))] } ∧
    (sql ≠ "" → base64Encode (sql.toList.map (fun c => c.toNat)) ≠ sql) :=
  ⟨query_request self dbowner dbname sql outcome hdom,
   execute_request self dbowner dbname sql outcome hdom,
   fun h => base64Encode_ne_self sql h⟩

/-- C4 witness: `query("owner","db","SELECT 1")` transmits
`sql = "U0VMRUNUIDE="`, the base64 encoding of `SELECT 1`, which is not
the raw string. -/
theorem C4_sql_base64_encoded_witness :
    ("SELECT 1".toList.all (fun c => c.toNat ≤ 255) = true) ∧
    (handle0.query "owner" "db" "SELECT 1" (.resolved 200 (some (.arr [])))).request =
      some { url := "https://api.dbhub.io/v1/query",
             body := [("apikey", "k"), ("dbowner", "owner"), ("dbname", "db"),
                      ("sql", "U0VMRUNUIDE=")] } ∧
    ("U0VMRUNUIDE=" : String) ≠ "SELECT 1" := by
  refine ⟨by decide, ?_, by decide⟩
  exact (C4_sql_base64_encoded handle0 "owner" "db" "SELECT 1"
      (.resolved 200 (some (.arr []))) (by decide)).1

/-- C5: construction with an absent key or the empty string fails with
the configuration error and produces no handle; construction with any
non-empty string succeeds and yields the handle with the fixed base URL
and the populated endpoint table. The constructor's embedding takes no
network outcome and produces no request: no network activity occurs at
construction. -/
theorem C5_construction (key : String) (h : key ≠ "") :
    DBHub.construct none =
      .error { cls := .error, message := "Missing required API key!", cause := none } ∧
    DBHub.construct (some "") =
      .error { cls := .error, message := "Missing required API key!", cause := none } ∧
    DBHub.construct (some key) =
      .ok { base_url := "https://api.dbhub.io", endpoints := get_endpoints,
            api_key := key } := by
  refine ⟨rfl, rfl, ?_⟩
  unfold DBHub.construct
  simp [h]

/-- C5 witness: construction with the non-empty key `"my-key"` succeeds
with the fixed base URL and the populated endpoint table. -/
theorem C5_construction_witness :
    ("my-key" : String) ≠ "" ∧
    DBHub.construct (some "my-key") =
      .ok { base_url := "https://api.dbhub.io", endpoints := get_endpoints,
            api_key := "my-key" } :=
  ⟨by decide, (C5_construction "my-key" (by decide)).2.2⟩

/-- C6: on a 2xx response with a parseable body, the dispatcher and
every catalog operation return the parsed JSON body unchanged, with no
validation or transformation (for `query`/`execute`, provided the SQL is
within `btoa`'s domain so that the call reaches the dispatcher). -/
theorem C6_success_passthrough (self : DBHub) (o n t d s url : String) (live : Bool)
    (parameters : List (String × FormValue)) (status : Nat) (j : Json)
    (hstatus : response_ok status = true)
    (hdom : s.toList.all (fun c => c.toNat ≤ 255) = true) :
    (self.make_request url parameters (.resolved status (some j))).2.2 = .ok j ∧
    (self.get_branches o n (.resolved status (some j))).result = .ok j ∧
    (self.get_columns o n t (.resolved status (some j))).result = .ok j ∧
    (self.get_commits o n (.resolved status (some j))).result = .ok j ∧
    (self.get_databases live (.resolved status (some j))).result = .ok j ∧
    (self.delete_database d (.resolved status (some j))).result = .ok j ∧
    (self.execute o n s (.resolved status (some j))).result = .ok j ∧
    (self.query o n s (.resolved status (some j))).result = .ok j := by
  have hmk : ∀ (u : String) (ps : List (String × FormValue)),
      (self.make_request u ps (.resolved status (some j))).2.2 = .ok j :=
    fun u ps => make_request_result_ok self u ps status j hstatus
  refine ⟨hmk url parameters, ?_, ?_, ?_, ?_, ?_, ?_, ?_⟩
  · simp [DBHub.get_branches, hmk]
  · simp [DBHub.get_columns, hmk]
  · simp [DBHub.get_commits, hmk]
  · simp [DBHub.get_databases, hmk]
  · simp [DBHub.delete_database, hmk]
  · unfold DBHub.execute
    rw [btoa_ok s hdom]
    simp [hmk]
  · unfold DBHub.query
    rw [btoa_ok s hdom]
    simp [hmk]

/-- C6 witness: a simulated 200 response with body `[]` for
`get_databases(false)` returns the empty list — not null and not an
error. -/
theorem C6_success_passthrough_witness :
    response_ok 200 = true ∧
    (handle0.get_databases false (.resolved 200 (some (.arr [])))).result =
      .ok (.arr []) := by
  refine ⟨by decide, ?_⟩
  exact (C6_success_passthrough handle0 "o" "n" "t" "d" "SELECT 1"
      "https://api.dbhub.io/v1/databases" false [] 200 (.arr [])
      (by decide) (by decide)).2.2.2.2.1

/-- C7: the endpoint table is the value of a function of the version
constant (`get_endpoints` of each source version is its parameterized
table at the fixed version `1`), and evolution between the two source
versions is append-only: every entry of the earlier table (`databases`,
`columns`, `query`, `execute`) is present unchanged in the current
table, and every entry of the current table is either an entry of the
earlier one or one of the added operations `branches`, `commits`,
`delete`. -/
theorem C7_endpoints_append_only (v : Nat) (entry : String × String)
    (h : entry ∈ endpoints_table_v0 v) :
    entry ∈ endpoints_table v ∧
    get_endpoints = endpoints_table 1 ∧
    get_endpoints_v0 = endpoints_table_v0 1 ∧
    (∀ e ∈ endpoints_table v,
      e ∈ endpoints_table_v0 v ∨ e.1 = "branches" ∨ e.1 = "commits" ∨ e.1 = "delete") := by
  refine ⟨?_, rfl, rfl, ?_⟩
  · simp only [endpoints_table_v0, List.mem_cons, List.not_mem_nil, or_false] at h
    rcases h with h | h | h | h <;> subst h <;> simp [endpoints_table]
  · intro e he
    simp only [endpoints_table, List.mem_cons, List.not_mem_nil, or_false] at he
    rcases he with he | he | he | he | he | he | he <;> subst he <;>
      simp [endpoints_table_v0]

/-- C7 witness: the `databases` entry of the earlier table is present
unchanged in the current table at version 1. -/
theorem C7_endpoints_append_only_witness :
    (("databases", "/v1/databases") ∈ endpoints_table_v0 1) ∧
    (("databases", "/v1/databases") ∈ endpoints_table 1) := by
  refine ⟨by decide, ?_⟩
  exact (C7_endpoints_append_only 1 ("databases", "/v1/databases") (by decide)).1

/-- C10: the base64 step of `query` and `execute` is partial. When every
code point of the SQL lies in `U+0000 .. U+00FF` the encoding succeeds
and a request is dispatched; when some code point exceeds `U+00FF`,
`btoa` throws `InvalidCharacterError` and the call fails with no request
issued. -/
theorem C10_btoa_domain (self : DBHub) (dbowner dbname sql : String)
    (outcome : FetchOutcome) :
    (sql.toList.all (fun c => c.toNat ≤ 255) = true →
      (∃ r, (self.query dbowner dbname sql outcome).request = some r) ∧
      (∃ r, (self.execute dbowner dbname sql outcome).request = some r)) ∧
    (sql.toList.all (fun c => c.toNat ≤ 255) = false →
      (self.query dbowner dbname sql outcome).request = none ∧
      (self.query dbowner dbname sql outcome).result = .error invalidCharacterError ∧
      (self.execute dbowner dbname sql outcome).request = none ∧
      (self.execute dbowner dbname sql outcome).result = .error invalidCharacterError) := by
  constructor
  · intro h
    exact ⟨⟨_, query_request self dbowner dbname sql outcome h⟩,
           ⟨_, execute_request self dbowner dbname sql outcome h⟩⟩
  · intro h
    unfold DBHub.query DBHub.execute
    rw [btoa_err sql h]
    simp

/-- C10 witness: `SELECT 1` is within `btoa`'s domain and a request is
dispatched; the one-character SQL `π` (code point `U+03C0`) is outside
it, the call fails with `InvalidCharacterError`, and no request is
issued. -/
theorem C10_btoa_domain_witness :
    ("SELECT 1".toList.all (fun c => c.toNat ≤ 255) = true) ∧
    (∃ r, (handle0.query "o" "n" "SELECT 1"
      (.resolved 200 (some (.arr [])))).request = some r) ∧
    ("π".toList.all (fun c => c.toNat ≤ 255) = false) ∧
    (handle0.query "o" "n" "π" (.resolved 200 (some (.arr [])))).request = none ∧
    (handle0.query "o" "n" "π" (.resolved 200 (some (.arr [])))).result =
      .error invalidCharacterError := by
  refine ⟨by decide, ?_, by decide, ?_, ?_⟩
  · exact ((C10_btoa_domain handle0 "o" "n" "SELECT 1"
        (.resolved 200 (some (.arr [])))).1 (by decide)).1
  · exact ((C10_btoa_domain handle0 "o" "n" "π"
        (.resolved 200 (some (.arr [])))).2 (by decide)).1
  · exact ((C10_btoa_domain handle0 "o" "n" "π"
        (.resolved 200 (some (.arr [])))).2 (by decide)).2.1

end DBHubJS
